import Mathlib

/-!
Verification development for the Cloudflare DDNS Home Assistant integration
(`custom_components/cloudflare_ddns`).  The reconciliation loop
(`CloudflareDDNSCoordinator._async_update_data` and its helpers in
`__init__.py`), the manual-sync button (`button.py`) and the TTL validation of
the configuration flow (`config_flow.py`) are embedded shallowly as pure Lean
functions over an explicit environment that records the responses of the
outbound HTTP calls.  Effects (provider record reads, provider writes,
notification attempts) are collected in an `Effects` record so that theorems
can speak about which calls a cycle issued.
-/

namespace CloudflareDDNS

/-- Constants from `const.py`. -/
def IP_TYPE_EXTERNAL : String := "external"

def IP_TYPE_INTERNAL : String := "internal"

def MIN_TTL : Int := 120

def MAX_TTL : Int := 7200

def AUTO_TTL : Int := 1

def DEFAULT_TTL : Int := 120

/-- The configuration fields of `CloudflareDDNSCoordinator.__init__` that the
reconcile cycle reads (from `entry.data` merged with `entry.options`). -/
structure Config where
  dns_record : String
  what_ip : String
  proxied : Bool
  ttl : Int
  auto_update_enabled : Bool
  notify_telegram : Bool
  telegram_chat_id : Option String
  telegram_bot_token : Option String
  notify_discord : Bool
  discord_webhook_url : Option String
deriving Repr, DecidableEq

/-- A DNS record as returned by the provider's record-listing endpoint:
`id`, `content` (the address) and the `proxied` flag. -/
structure DnsRecord where
  id : String
  content : String
  proxied : Bool
deriving Repr, DecidableEq

/-- The provider's JSON envelope for the record-listing call: HTTP status,
`success` flag and `result` list. -/
structure ListResp where
  status : Nat
  success : Bool
  result : List DnsRecord
deriving Repr, DecidableEq

/-- The environment of one reconcile cycle: the outcome of each outbound HTTP
call the cycle may make, plus the wall clock.  `none` models a transport
exception (caught by the corresponding `try`/`except` block in the source). -/
structure Env where
  ipResp : Option (Nat × String)
  recordResp : Option ListResp
  updateResp : Option (Nat × Bool)
  telegramResp : Option Nat
  discordResp : Option Nat
  now : Nat
deriving Repr, DecidableEq

/-- Notification channels of `_send_notifications`. -/
inductive Channel where
  | telegram
  | discord
deriving Repr, DecidableEq

/-- The dict returned by `_async_update_data` and published as coordinator
data (the `SyncStatus` snapshot). -/
structure SyncData where
  synced : Bool
  current_ip : String
  dns_record_ip : String
  domain : String
deriving Repr, DecidableEq

/-- The coordinator's mutable state: `last_sync_time`,
`_manual_sync_requested`, and the last published data snapshot
(`self.data`, retained by the coordinator when a cycle raises). -/
structure CoordState where
  last_sync_time : Option Nat
  manual_sync_requested : Bool
  data : Option SyncData
deriving Repr, DecidableEq

/-- One provider write call (`PUT .../dns_records/{id}`) with the JSON body
fields of `_update_dns_record` (the `type` field is fixed to "A"). -/
structure WriteCall where
  record_id : String
  name : String
  content : String
  ttl : Int
  proxied : Bool
deriving Repr, DecidableEq

/-- Observable effects of one cycle: number of provider record reads, the
provider write calls issued, and the notification channels attempted. -/
structure Effects where
  record_reads : Nat
  writes : List WriteCall
  notify_attempts : List Channel
deriving Repr, DecidableEq

/-- Result of one cycle: the raised/returned outcome (`UpdateFailed` message
or the returned dict), the post-cycle coordinator state, and the effects. -/
structure CycleResult where
  outcome : Except String SyncData
  state : CoordState
  effects : Effects
deriving Repr

/-- Python truthiness of an optional string (`if chat_id and bot_token`):
present and non-empty. -/
def truthy : Option String → Bool
  | none => false
  | some s => !(s == "")

/-- Python `str.strip()` as used on the address-echo response body: drop
whitespace from both ends. -/
def pyStrip (s : String) : String :=
  String.mk (((s.data.dropWhile Char.isWhitespace).reverse.dropWhile
    Char.isWhitespace).reverse)

/-- Embeds `_get_current_ip`: for the external strategy, a 200 response
yields the stripped body; any other status, a transport exception, or the
internal strategy yields `None`. -/
def getCurrentIp (c : Config) (env : Env) : Option String :=
  if c.what_ip == IP_TYPE_EXTERNAL then
    match env.ipResp with
    | some (status, body) => if status == 200 then some (pyStrip body) else none
    | none => none
  else
    none

/-- Embeds `_get_dns_record_info`: a 200 response whose envelope has
`success` true and a non-empty `result` list yields the first record;
anything else (including a transport exception) yields `None`. -/
def getDnsRecordInfo (env : Env) : Option DnsRecord :=
  match env.recordResp with
  | some r =>
      if r.status == 200 && r.success && !r.result.isEmpty then
        r.result.head?
      else
        none
  | none => none

/-- Embeds `_update_dns_record`: true exactly when the HTTP status is 200 and
the JSON envelope's `success` flag is true; a transport exception yields
false. -/
def updateDnsRecord (env : Env) : Bool :=
  match env.updateResp with
  | some (status, success) => status == 200 && success
  | none => false

/-- Embeds `_send_notifications`: each enabled channel with truthy
credentials is attempted; each attempt is wrapped in its own `try`/`except`
and only logged, so the attempted channels do not depend on the responses in
`env` and no response can abort the function. -/
def sendNotifications (c : Config) (_env : Env) : List Channel :=
  (if c.notify_telegram && truthy c.telegram_chat_id
      && truthy c.telegram_bot_token then
    [Channel.telegram]
  else
    []) ++
  (if c.notify_discord && truthy c.discord_webhook_url then
    [Channel.discord]
  else
    [])

/-- Embeds `_async_update_data`: snapshot and clear the manual-sync flag,
resolve the current address, read the DNS record, compare, conditionally
write, update `last_sync_time`, and return the published dict.  A raised
`UpdateFailed` is the `Except.error` arm, carrying the source's message; the
coordinator then keeps the previously published data. -/
def asyncUpdateData (c : Config) (st : CoordState) (env : Env) : CycleResult :=
  let is_manual_sync := st.manual_sync_requested
  let st1 : CoordState := { st with manual_sync_requested := false }
  match getCurrentIp c env with
  | none =>
      { outcome := .error "Failed to get current IP address"
        state := st1
        effects := { record_reads := 0, writes := [], notify_attempts := [] } }
  | some current_ip =>
      if current_ip = "" then
        { outcome := .error "Failed to get current IP address"
          state := st1
          effects := { record_reads := 0, writes := [], notify_attempts := [] } }
      else
        match getDnsRecordInfo env with
        | none =>
            { outcome := .error "Failed to get DNS record information"
              state := st1
              effects :=
                { record_reads := 1, writes := [], notify_attempts := [] } }
        | some info =>
            let synced :=
              (info.content == current_ip) && (info.proxied == c.proxied)
            if is_manual_sync || (!synced && c.auto_update_enabled) then
              if !synced then
                let w : WriteCall :=
                  { record_id := info.id, name := c.dns_record
                    content := current_ip, ttl := c.ttl, proxied := c.proxied }
                if updateDnsRecord env then
                  let notes := sendNotifications c env
                  let lst1 : Option Nat := some env.now
                  let lst2 : Option Nat :=
                    if c.auto_update_enabled && !is_manual_sync then
                      some env.now
                    else
                      lst1
                  let d : SyncData :=
                    { synced := true, current_ip := current_ip
                      dns_record_ip := info.content, domain := c.dns_record }
                  { outcome := .ok d
                    state :=
                      { last_sync_time := lst2, manual_sync_requested := false
                        data := some d }
                    effects :=
                      { record_reads := 1, writes := [w]
                        notify_attempts := notes } }
                else
                  { outcome := .error "Failed to update DNS record"
                    state := st1
                    effects :=
                      { record_reads := 1, writes := [w]
                        notify_attempts := [] } }
              else
                let lst1 : Option Nat :=
                  if is_manual_sync then some env.now else st.last_sync_time
                let lst2 : Option Nat :=
                  if c.auto_update_enabled && !is_manual_sync then
                    some env.now
                  else
                    lst1
                let d : SyncData :=
                  { synced := synced, current_ip := current_ip
                    dns_record_ip := info.content, domain := c.dns_record }
                { outcome := .ok d
                  state :=
                    { last_sync_time := lst2, manual_sync_requested := false
                      data := some d }
                  effects :=
                    { record_reads := 1, writes := [], notify_attempts := [] } }
            else
              let lst2 : Option Nat :=
                if c.auto_update_enabled && !is_manual_sync then
                  some env.now
                else
                  st.last_sync_time
              let d : SyncData :=
                { synced := synced, current_ip := current_ip
                  dns_record_ip := info.content, domain := c.dns_record }
              { outcome := .ok d
                state :=
                  { last_sync_time := lst2, manual_sync_requested := false
                    data := some d }
                effects :=
                  { record_reads := 1, writes := [], notify_attempts := [] } }

/-- Embeds `CloudflareDDNSSyncButton.async_press`: set the manual-sync flag
(the refresh it then requests runs `asyncUpdateData`). -/
def asyncPress (st : CoordState) : CoordState :=
  { st with manual_sync_requested := true }

/-- Embeds the TTL validation of `async_step_user` in `config_flow.py`:
a TTL that is not the automatic sentinel and lies outside [MIN_TTL, MAX_TTL]
is rejected with the `invalid_ttl` error key. -/
def validateTtlUser (ttl : Int) : Option String :=
  if ttl ≠ AUTO_TTL ∧ (ttl < MIN_TTL ∨ ttl > MAX_TTL) then
    some "invalid_ttl"
  else
    none

/-- Embeds the identical TTL validation of `async_step_init` in the options
flow of `config_flow.py`. -/
def validateTtlOptions (ttl : Int) : Option String :=
  if ttl ≠ AUTO_TTL ∧ (ttl < MIN_TTL ∨ ttl > MAX_TTL) then
    some "invalid_ttl"
  else
    none

/-! Concrete inputs used by the witness theorems. -/

/-- A configuration with auto-update on and both notification channels
configured. -/
def cfgA : Config :=
  { dns_record := "host.example.com", what_ip := "external", proxied := false
    ttl := 120, auto_update_enabled := true, notify_telegram := true
    telegram_chat_id := some "42", telegram_bot_token := some "tok"
    notify_discord := true, discord_webhook_url := some "https://d.example/wh" }

/-- The same configuration with auto-update off. -/
def cfgB : Config := { cfgA with auto_update_enabled := false }

/-- Fresh coordinator state: no sync yet, no manual request. -/
def stZero : CoordState :=
  { last_sync_time := none, manual_sync_requested := false, data := none }

/-- Coordinator state with a pending manual-sync request. -/
def stMan : CoordState :=
  { last_sync_time := none, manual_sync_requested := true, data := none }

/-- A previously published snapshot, used to observe retention on failure. -/
def dPrev : SyncData :=
  { synced := true, current_ip := "9.9.9.9", dns_record_ip := "9.9.9.9"
    domain := "host.example.com" }

/-- Coordinator state that already holds a published snapshot. -/
def stPrev : CoordState :=
  { last_sync_time := some 7, manual_sync_requested := false, data := some dPrev }

/-- A remote record matching current address 5.6.7.8, unproxied. -/
def recSynced : DnsRecord :=
  { id := "rid", content := "5.6.7.8", proxied := false }

/-- A remote record holding the stale address 1.2.3.4. -/
def recStale : DnsRecord :=
  { id := "rid", content := "1.2.3.4", proxied := false }

/-- Environment: address resolves to 5.6.7.8, record already synced. -/
def envSynced : Env :=
  { ipResp := some (200, "5.6.7.8")
    recordResp := some { status := 200, success := true, result := [recSynced] }
    updateResp := some (200, true)
    telegramResp := none, discordResp := some 204, now := 99 }

/-- Environment: record stale, provider write succeeds. -/
def envStale : Env :=
  { ipResp := some (200, "5.6.7.8")
    recordResp := some { status := 200, success := true, result := [recStale] }
    updateResp := some (200, true)
    telegramResp := none, discordResp := some 204, now := 99 }

/-- Environment: record stale, provider write fails with HTTP 500. -/
def envStaleFail : Env :=
  { envStale with updateResp := some (500, false) }

/-- Environment: address resolution hits a transport exception. -/
def envNoIp : Env :=
  { ipResp := none
    recordResp := some { status := 200, success := true, result := [recStale] }
    updateResp := some (200, true)
    telegramResp := some 200, discordResp := some 204, now := 99 }

/-- Second-cycle environment for the idempotence claim: the record now holds
the address written by the first cycle. -/
def envAfterWrite : Env :=
  { ipResp := some (200, "5.6.7.8")
    recordResp := some { status := 200, success := true, result := [recSynced] }
    updateResp := some (200, true)
    telegramResp := some 200, discordResp := some 204, now := 123 }

/-- C1: synced record plus no manual trigger means no write and
`synced = true`. -/
theorem claim_C1 (c : Config) (st : CoordState) (env : Env) (ip : String)
    (info : DnsRecord)
    (hip : getCurrentIp c env = some ip) (hne : ip ≠ "")
    (hrec : getDnsRecordInfo env = some info)
    (haddr : info.content = ip) (hprox : info.proxied = c.proxied)
    (hman : st.manual_sync_requested = false) :
    (asyncUpdateData c st env).effects.writes = [] ∧
    ∃ d, (asyncUpdateData c st env).outcome = Except.ok d ∧ d.synced = true := by
  simp [asyncUpdateData, hip, hrec, haddr, hprox, hman, hne]

theorem claim_C1_witness :
    (asyncUpdateData cfgA stZero envSynced).effects.writes = [] ∧
    ∃ d, (asyncUpdateData cfgA stZero envSynced).outcome = Except.ok d ∧
      d.synced = true :=
  claim_C1 cfgA stZero envSynced "5.6.7.8" recSynced rfl (by decide) rfl rfl rfl
    rfl

/-- C2: failed or empty address resolution fails the cycle with the
address-resolution error, issues no provider record read and no write, and
retains the previous snapshot and `last_sync_time`. -/
theorem claim_C2 (c : Config) (st : CoordState) (env : Env)
    (hip : getCurrentIp c env = none ∨ getCurrentIp c env = some "") :
    (asyncUpdateData c st env).outcome =
      Except.error "Failed to get current IP address" ∧
    (asyncUpdateData c st env).effects.record_reads = 0 ∧
    (asyncUpdateData c st env).effects.writes = [] ∧
    (asyncUpdateData c st env).state.data = st.data ∧
    (asyncUpdateData c st env).state.last_sync_time = st.last_sync_time := by
  rcases hip with h | h <;> simp [asyncUpdateData, h]

theorem claim_C2_witness :
    (asyncUpdateData cfgA stPrev envNoIp).outcome =
      Except.error "Failed to get current IP address" ∧
    (asyncUpdateData cfgA stPrev envNoIp).effects.record_reads = 0 ∧
    (asyncUpdateData cfgA stPrev envNoIp).effects.writes = [] ∧
    (asyncUpdateData cfgA stPrev envNoIp).state.data = stPrev.data ∧
    (asyncUpdateData cfgA stPrev envNoIp).state.last_sync_time =
      stPrev.last_sync_time :=
  claim_C2 cfgA stPrev envNoIp (Or.inl rfl)

/-- C3: with auto-update on, no manual trigger, a mismatched record and a
successful write, two successive cycles issue exactly one write (carrying the
current address); the second cycle sees the record synced and writes
nothing. -/
theorem claim_C3 (c : Config) (st : CoordState) (env env2 : Env) (ip : String)
    (info : DnsRecord)
    (hman : st.manual_sync_requested = false)
    (hauto : c.auto_update_enabled = true)
    (hip : getCurrentIp c env = some ip) (hne : ip ≠ "")
    (hrec : getDnsRecordInfo env = some info)
    (hmis : info.content ≠ ip ∨ info.proxied ≠ c.proxied)
    (hupd : updateDnsRecord env = true)
    (hip2 : getCurrentIp c env2 = some ip)
    (hrec2 : getDnsRecordInfo env2 =
      some { id := info.id, content := ip, proxied := c.proxied }) :
    ∃ w : WriteCall,
      (asyncUpdateData c st env).effects.writes = [w] ∧ w.content = ip ∧
      (asyncUpdateData c (asyncUpdateData c st env).state env2).effects.writes
        = [] ∧
      ∃ d, (asyncUpdateData c (asyncUpdateData c st env).state env2).outcome =
        Except.ok d ∧ d.synced = true := by
  have hs : ((info.content == ip) && (info.proxied == c.proxied)) = false := by
    rcases hmis with h | h <;> simp [h]
  have h1 : asyncUpdateData c st env =
      { outcome := Except.ok
          { synced := true, current_ip := ip, dns_record_ip := info.content
            domain := c.dns_record }
        state :=
          { last_sync_time := some env.now, manual_sync_requested := false
            data := some { synced := true, current_ip := ip
                           dns_record_ip := info.content
                           domain := c.dns_record } }
        effects :=
          { record_reads := 1
            writes := [{ record_id := info.id, name := c.dns_record
                         content := ip, ttl := c.ttl, proxied := c.proxied }]
            notify_attempts := sendNotifications c env } } := by
    simp [asyncUpdateData, hip, hrec, hman, hauto, hne, hs, hupd]
  refine ⟨{ record_id := info.id, name := c.dns_record, content := ip
            ttl := c.ttl, proxied := c.proxied }, ?_, rfl, ?_, ?_⟩
  · rw [h1]
  · rw [h1]
    simp [asyncUpdateData, hip2, hrec2, hne]
  · rw [h1]
    simp [asyncUpdateData, hip2, hrec2, hne]

theorem claim_C3_witness :
    ∃ w : WriteCall,
      (asyncUpdateData cfgA stZero envStale).effects.writes = [w] ∧
      w.content = "5.6.7.8" ∧
      (asyncUpdateData cfgA (asyncUpdateData cfgA stZero envStale).state
        envAfterWrite).effects.writes = [] ∧
      ∃ d,
        (asyncUpdateData cfgA (asyncUpdateData cfgA stZero envStale).state
          envAfterWrite).outcome = Except.ok d ∧ d.synced = true :=
  claim_C3 cfgA stZero envStale envAfterWrite "5.6.7.8" recStale rfl rfl rfl
    (by decide) rfl (Or.inl (by decide)) rfl rfl rfl

/-- C5: a successful non-manual cycle with auto-update on refreshes
`last_sync_time` to the current time, write or no write. -/
theorem claim_C5 (c : Config) (st : CoordState) (env : Env) (d : SyncData)
    (hauto : c.auto_update_enabled = true)
    (hman : st.manual_sync_requested = false)
    (hok : (asyncUpdateData c st env).outcome = Except.ok d) :
    (asyncUpdateData c st env).state.last_sync_time = some env.now := by
  rcases h1 : getCurrentIp c env with _ | ip
  · simp [asyncUpdateData, h1] at hok
  · by_cases h2 : ip = ""
    · simp [asyncUpdateData, h1, h2] at hok
    · rcases h3 : getDnsRecordInfo env with _ | info
      · simp [asyncUpdateData, h1, h2, h3] at hok
      · cases h4 : ((info.content == ip) && (info.proxied == c.proxied))
        · cases h5 : updateDnsRecord env
          · simp [asyncUpdateData, h1, h2, h3, h4, h5, hman, hauto] at hok
          · simp [asyncUpdateData, h1, h2, h3, h4, h5, hman, hauto]
        · simp [asyncUpdateData, h1, h2, h3, h4, hman, hauto]

theorem claim_C5_witness :
    (asyncUpdateData cfgA stZero envSynced).state.last_sync_time =
      some envSynced.now :=
  claim_C5 cfgA stZero envSynced
    { synced := true, current_ip := "5.6.7.8", dns_record_ip := "5.6.7.8"
      domain := "host.example.com" } rfl rfl rfl

/-- C6: a manual cycle on an already-synced record issues no write and still
refreshes `last_sync_time`. -/
theorem claim_C6 (c : Config) (st : CoordState) (env : Env) (ip : String)
    (info : DnsRecord)
    (hman : st.manual_sync_requested = true)
    (hip : getCurrentIp c env = some ip) (hne : ip ≠ "")
    (hrec : getDnsRecordInfo env = some info)
    (haddr : info.content = ip) (hprox : info.proxied = c.proxied) :
    (asyncUpdateData c st env).effects.writes = [] ∧
    (asyncUpdateData c st env).state.last_sync_time = some env.now ∧
    ∃ d, (asyncUpdateData c st env).outcome = Except.ok d := by
  simp [asyncUpdateData, hip, hrec, haddr, hprox, hman, hne]

theorem claim_C6_witness :
    (asyncUpdateData cfgA stMan envSynced).effects.writes = [] ∧
    (asyncUpdateData cfgA stMan envSynced).state.last_sync_time =
      some envSynced.now ∧
    ∃ d, (asyncUpdateData cfgA stMan envSynced).outcome = Except.ok d :=
  claim_C6 cfgA stMan envSynced "5.6.7.8" recSynced rfl rfl (by decide) rfl rfl
    rfl

/-- C7: with auto-update off and no manual trigger, a mismatched record gets
no write, yet the cycle succeeds and publishes `synced = false` with the
current and record addresses. -/
theorem claim_C7 (c : Config) (st : CoordState) (env : Env) (ip : String)
    (info : DnsRecord)
    (hauto : c.auto_update_enabled = false)
    (hman : st.manual_sync_requested = false)
    (hip : getCurrentIp c env = some ip) (hne : ip ≠ "")
    (hrec : getDnsRecordInfo env = some info)
    (hmis : info.content ≠ ip ∨ info.proxied ≠ c.proxied) :
    (asyncUpdateData c st env).effects.writes = [] ∧
    ∃ d, (asyncUpdateData c st env).outcome = Except.ok d ∧
      (asyncUpdateData c st env).state.data = some d ∧
      d.synced = false ∧ d.current_ip = ip ∧
      d.dns_record_ip = info.content := by
  have hs : ((info.content == ip) && (info.proxied == c.proxied)) = false := by
    rcases hmis with h | h <;> simp [h]
  simp [asyncUpdateData, hip, hrec, hman, hauto, hne, hs]

theorem claim_C7_witness :
    (asyncUpdateData cfgB stZero envStale).effects.writes = [] ∧
    ∃ d, (asyncUpdateData cfgB stZero envStale).outcome = Except.ok d ∧
      (asyncUpdateData cfgB stZero envStale).state.data = some d ∧
      d.synced = false ∧ d.current_ip = "5.6.7.8" ∧
      d.dns_record_ip = recStale.content :=
  claim_C7 cfgB stZero envStale "5.6.7.8" recStale rfl rfl rfl (by decide) rfl
    (Or.inl (by decide))

/-- C4: the provider write returns true exactly when the HTTP status is 200
and the envelope's success flag is true; a cycle that attempted a write and
got false fails with the update error and keeps the previous snapshot and
`last_sync_time`. -/
theorem claim_C4 (c : Config) (st : CoordState) (env e : Env)
    (hfail : updateDnsRecord env = false)
    (hatt : (asyncUpdateData c st env).effects.writes ≠ []) :
    (updateDnsRecord e = true ↔ e.updateResp = some (200, true)) ∧
    (asyncUpdateData c st env).outcome =
      Except.error "Failed to update DNS record" ∧
    (asyncUpdateData c st env).state.data = st.data ∧
    (asyncUpdateData c st env).state.last_sync_time = st.last_sync_time := by
  refine ⟨?_, ?_⟩
  · rcases he : e.updateResp with _ | ⟨s, b⟩
    · simp [updateDnsRecord, he]
    · cases b <;> simp [updateDnsRecord, he, Prod.ext_iff]
  · rcases h1 : getCurrentIp c env with _ | ip
    · simp [asyncUpdateData, h1] at hatt
    · by_cases h2 : ip = ""
      · simp [asyncUpdateData, h1, h2] at hatt
      · rcases h3 : getDnsRecordInfo env with _ | info
        · simp [asyncUpdateData, h1, h2, h3] at hatt
        · cases h4 : ((info.content == ip) && (info.proxied == c.proxied))
          · cases hm : st.manual_sync_requested
            · cases ha : c.auto_update_enabled
              · simp [asyncUpdateData, h1, h2, h3, h4, hm, ha] at hatt
              · simp [asyncUpdateData, h1, h2, h3, h4, hm, ha, hfail]
            · simp [asyncUpdateData, h1, h2, h3, h4, hm, hfail]
          · cases hm : st.manual_sync_requested <;>
              simp [asyncUpdateData, h1, h2, h3, h4, hm] at hatt

theorem claim_C4_witness :
    (updateDnsRecord envStaleFail = true ↔
      envStaleFail.updateResp = some (200, true)) ∧
    (asyncUpdateData cfgA stPrev envStaleFail).outcome =
      Except.error "Failed to update DNS record" ∧
    (asyncUpdateData cfgA stPrev envStaleFail).state.data = stPrev.data ∧
    (asyncUpdateData cfgA stPrev envStaleFail).state.last_sync_time =
      stPrev.last_sync_time :=
  claim_C4 cfgA stPrev envStaleFail envStaleFail rfl (by decide)

/-- C8: with both channels enabled and configured, both are attempted no
matter how any outbound call fares (in particular when the chat-bot call
fails), and the cycle's result does not depend on the notification
responses. -/
theorem claim_C8 (c : Config) (st : CoordState) (env : Env)
    (t d : Option Nat)
    (ht : c.notify_telegram = true) (htc : truthy c.telegram_chat_id = true)
    (htb : truthy c.telegram_bot_token = true)
    (hd : c.notify_discord = true) (hdw : truthy c.discord_webhook_url = true) :
    sendNotifications c env = [Channel.telegram, Channel.discord] ∧
    asyncUpdateData c st { env with telegramResp := t, discordResp := d } =
      asyncUpdateData c st env := by
  constructor
  · simp [sendNotifications, ht, htc, htb, hd, hdw]
  · rfl

theorem claim_C8_witness :
    sendNotifications cfgA envStale = [Channel.telegram, Channel.discord] ∧
    asyncUpdateData cfgA stZero
        { envStale with telegramResp := none, discordResp := some 500 } =
      asyncUpdateData cfgA stZero envStale :=
  claim_C8 cfgA stZero envStale none (some 500) rfl rfl rfl rfl rfl

/-- C9: TTL 1 passes both configuration steps as the automatic sentinel;
any other TTL outside [120, 7200] is rejected with `invalid_ttl` in both the
initial step and the options step. -/
theorem claim_C9 (t : Int) (h1 : t ≠ AUTO_TTL)
    (h2 : t < MIN_TTL ∨ t > MAX_TTL) :
    validateTtlUser t = some "invalid_ttl" ∧
    validateTtlOptions t = some "invalid_ttl" ∧
    validateTtlUser AUTO_TTL = none ∧
    validateTtlOptions AUTO_TTL = none := by
  refine ⟨?_, ?_, by decide, by decide⟩ <;>
    simp [validateTtlUser, validateTtlOptions, h1, h2]

theorem claim_C9_witness :
    validateTtlUser 50 = some "invalid_ttl" ∧
    validateTtlOptions 50 = some "invalid_ttl" ∧
    validateTtlUser AUTO_TTL = none ∧
    validateTtlOptions AUTO_TTL = none :=
  claim_C9 50 (by decide) (Or.inl (by decide))

/-- C10: every cycle snapshots and clears the manual-sync flag at entry —
the post-state flag is false in every branch, success or failure — while the
button press sets it. -/
theorem claim_C10 (c : Config) (st : CoordState) (env : Env) :
    (asyncUpdateData c st env).state.manual_sync_requested = false ∧
    (asyncPress st).manual_sync_requested = true := by
  refine ⟨?_, rfl⟩
  rcases h1 : getCurrentIp c env with _ | ip
  · simp [asyncUpdateData, h1]
  · by_cases h2 : ip = ""
    · simp [asyncUpdateData, h1, h2]
    · rcases h3 : getDnsRecordInfo env with _ | info
      · simp [asyncUpdateData, h1, h2, h3]
      · cases h4 : ((info.content == ip) && (info.proxied == c.proxied)) <;>
          cases hm : st.manual_sync_requested <;>
          cases ha : c.auto_update_enabled <;>
          cases h5 : updateDnsRecord env <;>
          simp [asyncUpdateData, h1, h2, h3, h4, hm, ha, h5]

end CloudflareDDNS
